import Mathlib

/-!
Shallow embedding of the transfer-orchestration core of
`src/src/utils/azCopyUtils.ts` and of its near-duplicate copy
`src/unnamed/part_001`.

The external collaborators (the AzCopy engine client, the UI prompt
service, the notification sink, the cancellation source and the clock)
are modelled as a scripted environment:

* successive `copyClient.getJobInfo(jobId).latestStatus` answers are a
  list of `Option TransferStatus` (`none` models an `undefined` status);
* the optional `throwIfCanceled` callback is an optional list of
  `Option String` scripting the outcome of its successive invocations
  (`some payload` models a throw carrying that payload, `none` a normal
  return; an exhausted script keeps returning normally);
* every observable interaction is recorded as an `Event` in a trace.

Machine numbers (`TransfersCompleted`, `BytesOverWire`) are modelled as
`Nat`; JavaScript `undefined` as `Option`.
-/

namespace AzCopy

/-- `sep` imported from node's `path` module, modelled for a POSIX host. -/
def sepChar : Char := '/'

/-- The separator as a string, as interpolated by the source. -/
def sep : String := "/"

/-- JS `s.endsWith(sep)` for the single-character separator: the last
character of `s` is the separator. -/
def endsWithSep (s : String) : Bool := s.data.getLast? == some sepChar

/-- JS `s[0] === c`: the first character of `s` is `c` (`false` on the
empty string, where `s[0]` is `undefined`). -/
def firstCharIs (s : String) (c : Char) : Bool := s.data.head? == some c

/-- The fields of `TransferStatus` (from the `azcopy-node` client library)
that the orchestration core reads. Optional fields model values the
engine may not have produced yet. -/
structure TransferStatus where
  StatusType : String
  JobStatus : Option String
  ErrorMsg : Option String
  TransfersCompleted : Option Nat
  BytesOverWire : Option Nat
deriving DecidableEq, Repr

/-- `ILocalLocation`: a local transfer endpoint. -/
structure ILocalLocation where
  type : String
  path : String
  useWildCard : Bool
deriving DecidableEq, Repr

/-- `IRemoteSasLocation`: a remote transfer endpoint with a SAS token. -/
structure IRemoteSasLocation where
  type : String
  sasToken : String
  resourceUri : String
  path : String
  useWildCard : Bool
deriving DecidableEq, Repr

/-- `createAzCopyLocalSource` of `azCopyUtils.ts`. -/
def createAzCopyLocalSource (sourcePath : String) : ILocalLocation :=
  { type := "Local", path := sourcePath, useWildCard := false }

/-- `createAzCopyLocalDirectorySource` of `azCopyUtils.ts`: appends the
separator (only when absent) and the dotfile-inclusive glob suffix
`.*`, and marks the location as a wildcard. -/
def createAzCopyLocalDirectorySource (sourceDirectoryPath : String) : ILocalLocation :=
  let path : String :=
    if endsWithSep sourceDirectoryPath then sourceDirectoryPath ++ ".*"
    else sourceDirectoryPath ++ sep ++ ".*"
  { type := "Local", path := path, useWildCard := true }

/-- `createAzCopyDestination` of `azCopyUtils.ts`, with the resource URI
and SAS token (obtained from the tree item's storage clients) passed as
values: normalizes the destination path to start with `/`. -/
def createAzCopyDestination (sasToken : String) (resourceUri : String)
    (destinationPath : String) : IRemoteSasLocation :=
  let path : String :=
    if firstCharIs destinationPath '/' then destinationPath
    else "/" ++ destinationPath
  { type := "RemoteSas", sasToken := sasToken, resourceUri := resourceUri,
    path := path, useWildCard := false }

namespace Part001

/-- `createAzCopyLocalDirectorySource` of `src/unnamed/part_001`: same
construction but with the bare glob suffix `*`. -/
def createAzCopyLocalDirectorySource (sourceDirectoryPath : String) : ILocalLocation :=
  let path : String :=
    if endsWithSep sourceDirectoryPath then sourceDirectoryPath ++ "*"
    else sourceDirectoryPath ++ sep ++ "*"
  { type := "Local", path := path, useWildCard := true }

end Part001

/-- Observable interactions of the orchestration core with its
collaborators, in order of occurrence. -/
inductive Event where
  | submit
  | cancelCheck
  | fetch
  | reportToOutputWindow (units : Nat)
  | reportToNotification (units : Nat)
  | sleep
  | promptDownload
  | openUrl
deriving DecidableEq, Repr

/-- Exceptions that can cross the orchestration core: an error thrown by
the cancellation check (carrying whatever payload the check threw), or a
`new Error(message)` raised by the core itself. -/
inductive Err where
  | canceled (payload : String)
  | error (message : String)
deriving DecidableEq, Repr

/-- Result of running a scripted async computation: a normal return, a
propagated exception, or exhaustion of the environment script (the real
code would still be awaiting its collaborator). -/
inductive Outcome (α : Type) where
  | ok (value : α)
  | thrown (e : Err)
  | stuck
deriving DecidableEq, Repr

/-- `status && (src.useWildCard ? status.TransfersCompleted : status.BytesOverWire) || 0`:
the progress counter selected by the wildcard rule, defaulting to `0`
when the status or the selected counter is absent. -/
def finishedWorkOf (useWildCard : Bool) (status : Option TransferStatus) : Nat :=
  match status with
  | none => 0
  | some s => if useWildCard then s.TransfersCompleted.getD 0 else s.BytesOverWire.getD 0

/-- The loop guard's exit condition: `status` is defined and
`status.StatusType === 'EndOfJob'`. -/
def isEndOfJob (status : Option TransferStatus) : Bool :=
  match status with
  | none => false
  | some s => s.StatusType == "EndOfJob"

/-- The events of one full iteration of the polling loop body, given the
status fetched in that iteration: the cancellation check (when a check
function was supplied), the status fetch, the report to the output
window, the report to the notification sink (when one was supplied), and
the unconditional 1000 ms sleep. -/
def cycleTrace (useWildCard checked hasNotif : Bool) (status : Option TransferStatus) :
    List Event :=
  (if checked then [Event.cancelCheck] else [])
    ++ [Event.fetch, Event.reportToOutputWindow (finishedWorkOf useWildCard status)]
    ++ (if hasNotif then [Event.reportToNotification (finishedWorkOf useWildCard status)] else [])
    ++ [Event.sleep]

/-- The `while (!status || status.StatusType !== 'EndOfJob')` loop of
`startAndWaitForCopy`, driven by the cancellation script and the status
script. Returns the outcome, the trace, and the unconsumed suffix of the
status script (later `getJobInfo` calls read from it). -/
def pollLoop (useWildCard hasNotif : Bool) (jobId : String) :
    Option (List (Option String)) → List (Option TransferStatus) →
      Outcome String × List Event × List (Option TransferStatus)
  | some (some payload :: _), statuses =>
    (.thrown (.canceled payload), [Event.cancelCheck], statuses)
  | tic, [] => (.stuck, if tic.isSome then [Event.cancelCheck] else [], [])
  | tic, status :: rest =>
    let cycle := cycleTrace useWildCard tic.isSome hasNotif status
    if isEndOfJob status then (.ok jobId, cycle, rest)
    else
      let next := pollLoop useWildCard hasNotif jobId (tic.map List.tail) rest
      (next.1, cycle ++ next.2.1, next.2.2)

/-- `startAndWaitForCopy` of `azCopyUtils.ts`: submit the job once
(obtaining `jobId`), then run the polling loop; on normal exit return
the job id. -/
def startAndWaitForCopy (useWildCard : Bool) (tic : Option (List (Option String)))
    (hasNotif : Bool) (jobId : String) (statuses : List (Option TransferStatus)) :
    Outcome String × List Event × List (Option TransferStatus) :=
  let next := pollLoop useWildCard hasNotif jobId tic statuses
  (next.1, Event.submit :: next.2.1, next.2.2)

/-- `!finalTransferStatus || finalTransferStatus.JobStatus === 'Failed'`. -/
def isFailedFinal (finalStatus : Option TransferStatus) : Bool :=
  match finalStatus with
  | none => true
  | some s => s.JobStatus == some "Failed"

/-- The message of the error thrown on a failed transfer:
`` `AzCopy Transfer Failed${finalTransferStatus?.ErrorMsg ? `: ${finalTransferStatus.ErrorMsg}` : ''}` ``
(an absent or empty `ErrorMsg` is falsy, yielding the generic message). -/
def failureMessage (finalStatus : Option TransferStatus) : String :=
  let errMsg : String := (finalStatus.bind TransferStatus.ErrorMsg).getD ""
  if errMsg == "" then "AzCopy Transfer Failed"
  else "AzCopy Transfer Failed: " ++ errMsg

/-- `validateAzCopyInstalled` of `azCopyUtils.ts`: returns whether the
engine probe succeeded; when it failed, prompts the operator (and opens
the download page when they accept), then returns `false` either way. -/
def validateAzCopyInstalled (installed : Bool) (answerDownload : Bool) :
    Bool × List Event :=
  if installed then (true, [])
  else (false, Event.promptDownload :: (if answerDownload then [Event.openUrl] else []))

/-- `azCopyTransfer` of `azCopyUtils.ts`: validate the engine, run
`startAndWaitForCopy`, re-fetch the final status by the returned job id,
and throw on an absent or failed final status. When validation fails,
return normally having done nothing. Exceptions from the poller
propagate unmodified (there is no try/catch). -/
def azCopyTransfer (installed answerDownload useWildCard : Bool)
    (tic : Option (List (Option String))) (hasNotif : Bool)
    (jobId : String) (statuses : List (Option TransferStatus)) :
    Outcome Unit × List Event :=
  let v := validateAzCopyInstalled installed answerDownload
  if v.1 then
    let run := startAndWaitForCopy useWildCard tic hasNotif jobId statuses
    match run.1 with
    | .ok _ =>
      match run.2.2 with
      | [] => (.stuck, v.2 ++ run.2.1)
      | finalStatus :: _ =>
        if isFailedFinal finalStatus then
          (.thrown (.error (failureMessage finalStatus)), v.2 ++ run.2.1 ++ [Event.fetch])
        else (.ok (), v.2 ++ run.2.1 ++ [Event.fetch])
    | .thrown e => (.thrown e, v.2 ++ run.2.1)
    | .stuck => (.stuck, v.2 ++ run.2.1)
  else (.ok (), v.2)

/-- Extract the value fed to `transferProgress.reportToOutputWindow`. -/
def outValue : Event → Option Nat
  | .reportToOutputWindow n => some n
  | _ => none

/-- Extract the value fed to `transferProgress.reportToNotification`. -/
def notifValue : Event → Option Nat
  | .reportToNotification n => some n
  | _ => none

/-- The successive values fed to the output-window report operation. -/
def reportedOutValues (trace : List Event) : List Nat := trace.filterMap outValue

/-- The successive values fed to the notification report operation. -/
def reportedNotifValues (trace : List Event) : List Nat := trace.filterMap notifValue

/-- The concatenated traces of a run of full loop iterations, one per
scripted status. -/
def tracesOf (useWildCard checked hasNotif : Bool) :
    List (Option TransferStatus) → List Event
  | [] => []
  | status :: rest =>
    cycleTrace useWildCard checked hasNotif status ++ tracesOf useWildCard checked hasNotif rest

/-- A cancellation script that never throws: either no check function
was supplied, or every scripted invocation returns normally. -/
def NoCancel (tic : Option (List (Option String))) : Prop :=
  ∀ cs, tic = some cs → ∀ x ∈ cs, x = none

/-- A concrete terminal status used in concrete runs. -/
def endStatusEx : TransferStatus :=
  { StatusType := "EndOfJob", JobStatus := some "Completed", ErrorMsg := none,
    TransfersCompleted := some 10, BytesOverWire := some 4096 }

/-- A concrete in-progress status used in concrete runs. -/
def progressStatusEx : TransferStatus :=
  { StatusType := "Progress", JobStatus := some "InProgress", ErrorMsg := none,
    TransfersCompleted := some 3, BytesOverWire := some 1024 }

example :
    startAndWaitForCopy true none false "j1" [some progressStatusEx, some endStatusEx] =
      (.ok "j1",
       [Event.submit, Event.fetch, Event.reportToOutputWindow 3, Event.sleep,
        Event.fetch, Event.reportToOutputWindow 10, Event.sleep],
       []) := by decide

example :
    (startAndWaitForCopy false (some [none, some "CANCELED"]) true "j1"
      [some progressStatusEx, some progressStatusEx, some endStatusEx]).1 =
      .thrown (.canceled "CANCELED") := by decide

/-! ### General run lemmas -/

theorem NoCancel.tail {tic : Option (List (Option String))} (h : NoCancel tic) :
    NoCancel (tic.map List.tail) := by
  intro cs hcs x hx
  rcases tic with _ | cs0
  · simp at hcs
  · simp at hcs
    subst hcs
    exact h cs0 rfl x (List.mem_of_mem_tail hx)

/-- A run whose cancellation script never throws and whose status script
is a block of non-terminal statuses followed by a terminal one performs
one full loop iteration per status up to and including the terminal one,
then returns the job id, leaving the remainder of the script unread. -/
theorem pollLoop_success (useWildCard hasNotif : Bool) (jobId : String) :
    ∀ (pre : List (Option TransferStatus)) (tic : Option (List (Option String))),
      NoCancel tic →
      (∀ st ∈ pre, isEndOfJob st = false) →
      ∀ (t : TransferStatus), t.StatusType = "EndOfJob" →
      ∀ rest,
        pollLoop useWildCard hasNotif jobId tic (pre ++ some t :: rest) =
          (.ok jobId, tracesOf useWildCard tic.isSome hasNotif (pre ++ [some t]), rest) := by
  intro pre
  induction pre with
  | nil =>
    intro tic hnc _ t ht rest
    have hEoJ : isEndOfJob (some t) = true := by simp [isEndOfJob, ht]
    rcases tic with _ | cs
    · simp [pollLoop, tracesOf, hEoJ]
    · rcases cs with _ | ⟨x, cs⟩
      · simp [pollLoop, tracesOf, hEoJ]
      · have hx : x = none := hnc _ rfl x (by simp)
        subst hx
        simp [pollLoop, tracesOf, hEoJ]
  | cons st pre ih =>
    intro tic hnc hpre t ht rest
    have hst : isEndOfJob st = false := hpre st (by simp)
    have hpre' : ∀ u ∈ pre, isEndOfJob u = false := fun u hu => hpre u (by simp [hu])
    rcases tic with _ | cs
    · have hrec := ih none hnc hpre' t ht rest
      simp only [pollLoop, hst]
      simp [hrec, tracesOf]
    · rcases cs with _ | ⟨x, cs⟩
      · have hrec := ih (some []) (by intro u hu; cases hu; simp) hpre' t ht rest
        simp only [pollLoop, hst]
        simp [hrec, tracesOf]
      · have hx : x = none := hnc _ rfl x (by simp)
        subst hx
        have hrec := ih (some cs)
          (by intro u hu x hx; cases hu; exact hnc _ rfl x (by simp [hx]))
          hpre' t ht rest
        simp only [pollLoop, hst]
        simp [hrec, tracesOf]

theorem startAndWaitForCopy_success (useWildCard hasNotif : Bool) (jobId : String)
    (tic : Option (List (Option String))) (pre rest : List (Option TransferStatus))
    (t : TransferStatus)
    (hnc : NoCancel tic)
    (hpre : ∀ st ∈ pre, isEndOfJob st = false)
    (ht : t.StatusType = "EndOfJob") :
    startAndWaitForCopy useWildCard tic hasNotif jobId (pre ++ some t :: rest) =
      (.ok jobId,
       Event.submit :: tracesOf useWildCard tic.isSome hasNotif (pre ++ [some t]),
       rest) := by
  simp [startAndWaitForCopy, pollLoop_success useWildCard hasNotif jobId pre tic hnc hpre t ht rest]

/-- A run whose cancellation script returns normally on its first
`pre.length` invocations and throws on the next one, over a status
script opening with `pre.length` non-terminal statuses, performs
`pre.length` full iterations and then stops at the next cycle's
cancellation check, before that cycle's status fetch. -/
theorem pollLoop_cancel (useWildCard hasNotif : Bool) (jobId : String) :
    ∀ (pre : List (Option TransferStatus)) (cs' : List (Option String)) (payload : String),
      (∀ st ∈ pre, isEndOfJob st = false) →
      ∀ rest,
        pollLoop useWildCard hasNotif jobId
            (some (List.replicate pre.length none ++ some payload :: cs'))
            (pre ++ rest) =
          (.thrown (.canceled payload),
           tracesOf useWildCard true hasNotif pre ++ [Event.cancelCheck],
           rest) := by
  intro pre
  induction pre with
  | nil =>
    intro cs' payload _ rest
    simp [pollLoop, tracesOf]
  | cons st pre ih =>
    intro cs' payload hpre rest
    have hst : isEndOfJob st = false := hpre st (by simp)
    have hrec := ih cs' payload (fun u hu => hpre u (by simp [hu])) rest
    simp only [List.length_cons, List.replicate_succ, List.cons_append, pollLoop, hst]
    simp [hrec, tracesOf]

/-- Facade run over a successful poll: validation passes, the poller
returns the job id, the facade re-fetches the next scripted status and
classifies it. -/
theorem azCopyTransfer_success_script (answerDownload useWildCard hasNotif : Bool)
    (jobId : String) (tic : Option (List (Option String)))
    (pre rest : List (Option TransferStatus)) (t : TransferStatus)
    (fs : Option TransferStatus)
    (hnc : NoCancel tic)
    (hpre : ∀ st ∈ pre, isEndOfJob st = false)
    (ht : t.StatusType = "EndOfJob") :
    azCopyTransfer true answerDownload useWildCard tic hasNotif jobId
        (pre ++ some t :: fs :: rest) =
      ((if isFailedFinal fs then .thrown (.error (failureMessage fs)) else .ok ()),
       Event.submit :: (tracesOf useWildCard tic.isSome hasNotif (pre ++ [some t]) ++ [Event.fetch])) := by
  have hrun := startAndWaitForCopy_success useWildCard hasNotif jobId tic pre (fs :: rest) t hnc hpre ht
  simp only [azCopyTransfer, validateAzCopyInstalled, if_true, hrun]
  by_cases hf : isFailedFinal fs <;> simp [hf]

/-- Facade run over a canceled poll: the cancellation error propagates
through the facade unmodified. -/
theorem azCopyTransfer_cancel_script (answerDownload useWildCard hasNotif : Bool)
    (jobId : String) (pre rest : List (Option TransferStatus))
    (cs' : List (Option String)) (payload : String)
    (hpre : ∀ st ∈ pre, isEndOfJob st = false) :
    azCopyTransfer true answerDownload useWildCard
        (some (List.replicate pre.length none ++ some payload :: cs'))
        hasNotif jobId (pre ++ rest) =
      (.thrown (.canceled payload),
       Event.submit :: (tracesOf useWildCard true hasNotif pre ++ [Event.cancelCheck])) := by
  have hrun := pollLoop_cancel useWildCard hasNotif jobId pre cs' payload hpre rest
  simp [azCopyTransfer, validateAzCopyInstalled, startAndWaitForCopy, hrun]

/-! ### Counting events in traces -/

theorem count_cycleTrace_fetch (useWildCard checked hasNotif : Bool)
    (status : Option TransferStatus) :
    (cycleTrace useWildCard checked hasNotif status).count Event.fetch = 1 := by
  cases checked <;> cases hasNotif <;>
    simp [cycleTrace, List.count_append, List.count_cons, List.count_nil]

theorem count_cycleTrace_sleep (useWildCard checked hasNotif : Bool)
    (status : Option TransferStatus) :
    (cycleTrace useWildCard checked hasNotif status).count Event.sleep = 1 := by
  cases checked <;> cases hasNotif <;>
    simp [cycleTrace, List.count_append, List.count_cons, List.count_nil]

theorem count_cycleTrace_submit (useWildCard checked hasNotif : Bool)
    (status : Option TransferStatus) :
    (cycleTrace useWildCard checked hasNotif status).count Event.submit = 0 := by
  cases checked <;> cases hasNotif <;>
    simp [cycleTrace, List.count_append, List.count_cons, List.count_nil]

theorem count_cycleTrace_cancelCheck (useWildCard checked hasNotif : Bool)
    (status : Option TransferStatus) :
    (cycleTrace useWildCard checked hasNotif status).count Event.cancelCheck =
      if checked then 1 else 0 := by
  cases checked <;> cases hasNotif <;>
    simp [cycleTrace, List.count_append, List.count_cons, List.count_nil]

theorem count_tracesOf_fetch (useWildCard checked hasNotif : Bool) :
    ∀ l : List (Option TransferStatus),
      (tracesOf useWildCard checked hasNotif l).count Event.fetch = l.length
  | [] => by simp [tracesOf]
  | status :: rest => by
    simp [tracesOf, List.count_append, count_cycleTrace_fetch,
      count_tracesOf_fetch useWildCard checked hasNotif rest, Nat.add_comm]

theorem count_tracesOf_sleep (useWildCard checked hasNotif : Bool) :
    ∀ l : List (Option TransferStatus),
      (tracesOf useWildCard checked hasNotif l).count Event.sleep = l.length
  | [] => by simp [tracesOf]
  | status :: rest => by
    simp [tracesOf, List.count_append, count_cycleTrace_sleep,
      count_tracesOf_sleep useWildCard checked hasNotif rest, Nat.add_comm]

theorem count_tracesOf_submit (useWildCard checked hasNotif : Bool) :
    ∀ l : List (Option TransferStatus),
      (tracesOf useWildCard checked hasNotif l).count Event.submit = 0
  | [] => by simp [tracesOf]
  | status :: rest => by
    simp [tracesOf, List.count_append, count_cycleTrace_submit,
      count_tracesOf_submit useWildCard checked hasNotif rest]

theorem count_tracesOf_cancelCheck (useWildCard checked hasNotif : Bool) :
    ∀ l : List (Option TransferStatus),
      (tracesOf useWildCard checked hasNotif l).count Event.cancelCheck =
        if checked then l.length else 0
  | [] => by simp [tracesOf]
  | status :: rest => by
    cases checked <;>
      simp [tracesOf, List.count_append, count_cycleTrace_cancelCheck,
        count_tracesOf_cancelCheck useWildCard _ hasNotif rest, Nat.add_comm]

theorem reportedOutValues_cycleTrace (useWildCard checked hasNotif : Bool)
    (status : Option TransferStatus) :
    reportedOutValues (cycleTrace useWildCard checked hasNotif status) =
      [finishedWorkOf useWildCard status] := by
  cases checked <;> cases hasNotif <;>
    simp [reportedOutValues, cycleTrace, outValue]

theorem reportedNotifValues_cycleTrace (useWildCard checked hasNotif : Bool)
    (status : Option TransferStatus) :
    reportedNotifValues (cycleTrace useWildCard checked hasNotif status) =
      if hasNotif then [finishedWorkOf useWildCard status] else [] := by
  cases checked <;> cases hasNotif <;>
    simp [reportedNotifValues, cycleTrace, notifValue]

theorem reportedOutValues_tracesOf (useWildCard checked hasNotif : Bool) :
    ∀ l : List (Option TransferStatus),
      reportedOutValues (tracesOf useWildCard checked hasNotif l) =
        l.map (finishedWorkOf useWildCard)
  | [] => by simp [tracesOf, reportedOutValues]
  | status :: rest => by
    simp only [tracesOf, reportedOutValues, List.filterMap_append, List.map_cons]
    rw [← reportedOutValues, ← reportedOutValues, reportedOutValues_cycleTrace,
      reportedOutValues_tracesOf useWildCard checked hasNotif rest]
    simp

theorem reportedNotifValues_tracesOf (useWildCard checked hasNotif : Bool) :
    ∀ l : List (Option TransferStatus),
      reportedNotifValues (tracesOf useWildCard checked hasNotif l) =
        if hasNotif then l.map (finishedWorkOf useWildCard) else []
  | [] => by simp [tracesOf, reportedNotifValues]
  | status :: rest => by
    simp only [tracesOf, reportedNotifValues, List.filterMap_append]
    rw [← reportedNotifValues, ← reportedNotifValues, reportedNotifValues_cycleTrace,
      reportedNotifValues_tracesOf useWildCard checked hasNotif rest]
    cases hasNotif <;> simp

/-! ### Claim theorems -/

/-- C1: for every scripted status sequence whose k-th status (k = `pre.length + 1`)
is the first with status type `EndOfJob`, `startAndWaitForCopy` submits the job
exactly once, performs exactly k status fetches, exits its loop exactly at the
terminal status (leaving the rest of the script unread), and returns the job
handle obtained from the single submission without error. -/
theorem C1_poller_submits_once_k_fetches (useWildCard hasNotif : Bool) (jobId : String)
    (tic : Option (List (Option String))) (pre rest : List (Option TransferStatus))
    (t : TransferStatus)
    (hnc : NoCancel tic)
    (hpre : ∀ st ∈ pre, isEndOfJob st = false)
    (ht : t.StatusType = "EndOfJob") :
    (startAndWaitForCopy useWildCard tic hasNotif jobId (pre ++ some t :: rest)).1 =
        Outcome.ok jobId
    ∧ ((startAndWaitForCopy useWildCard tic hasNotif jobId (pre ++ some t :: rest)).2.1).count
        Event.submit = 1
    ∧ ((startAndWaitForCopy useWildCard tic hasNotif jobId (pre ++ some t :: rest)).2.1).count
        Event.fetch = pre.length + 1
    ∧ (startAndWaitForCopy useWildCard tic hasNotif jobId (pre ++ some t :: rest)).2.2 = rest := by
  have h := startAndWaitForCopy_success useWildCard hasNotif jobId tic pre rest t hnc hpre ht
  rw [h]
  refine ⟨rfl, ?_, ?_, rfl⟩
  · simp [List.count_cons, count_tracesOf_submit]
  · simp [List.count_cons, count_tracesOf_fetch]

theorem C1_witness :
    (startAndWaitForCopy true none true "job"
        ([some progressStatusEx, none] ++ some endStatusEx :: [])).1 = Outcome.ok "job"
    ∧ ((startAndWaitForCopy true none true "job"
        ([some progressStatusEx, none] ++ some endStatusEx :: [])).2.1).count Event.submit = 1
    ∧ ((startAndWaitForCopy true none true "job"
        ([some progressStatusEx, none] ++ some endStatusEx :: [])).2.1).count Event.fetch = 3
    ∧ (startAndWaitForCopy true none true "job"
        ([some progressStatusEx, none] ++ some endStatusEx :: [])).2.2 = [] :=
  C1_poller_submits_once_k_fetches true true "job" none [some progressStatusEx, none] []
    endStatusEx (by simp [NoCancel]) (by decide) (by decide)

/-- C2 counterexample: on the one-poll script whose single status is already
terminal (k = 1), the poller performs one wait — after observing the terminal
status — where the claim predicts k - 1 = 0 waits and no wait after the
terminal status. The full trace shows the sleep following the terminal fetch. -/
theorem C2_counterexample :
    startAndWaitForCopy false none false "job" [some endStatusEx] =
      (Outcome.ok "job",
       [Event.submit, Event.fetch, Event.reportToOutputWindow 4096, Event.sleep],
       [])
    ∧ ((startAndWaitForCopy false none false "job" [some endStatusEx]).2.1).count
        Event.sleep = 1 := by
  decide

/-- C2 amended: the fixed wait occurs unconditionally at the end of every poll
cycle, including the cycle that observes the terminal status: for a scripted
sequence ending in `EndOfJob` at poll k the poller performs exactly k waits,
one per status fetch, so consecutive fetches are always separated by the fixed
interval (the poller never busy-polls faster than it). -/
theorem C2_amended_wait_every_cycle (useWildCard hasNotif : Bool) (jobId : String)
    (tic : Option (List (Option String))) (pre rest : List (Option TransferStatus))
    (t : TransferStatus)
    (hnc : NoCancel tic)
    (hpre : ∀ st ∈ pre, isEndOfJob st = false)
    (ht : t.StatusType = "EndOfJob") :
    ((startAndWaitForCopy useWildCard tic hasNotif jobId (pre ++ some t :: rest)).2.1).count
        Event.sleep = pre.length + 1
    ∧ ((startAndWaitForCopy useWildCard tic hasNotif jobId (pre ++ some t :: rest)).2.1).count
        Event.sleep =
      ((startAndWaitForCopy useWildCard tic hasNotif jobId (pre ++ some t :: rest)).2.1).count
        Event.fetch := by
  have h := startAndWaitForCopy_success useWildCard hasNotif jobId tic pre rest t hnc hpre ht
  rw [h]
  constructor
  · simp [List.count_cons, count_tracesOf_sleep]
  · simp [List.count_cons, count_tracesOf_sleep, count_tracesOf_fetch]

theorem C2_amended_witness :
    ((startAndWaitForCopy true (some [none, none]) true "job"
        ([some progressStatusEx] ++ some endStatusEx :: [])).2.1).count Event.sleep = 2
    ∧ ((startAndWaitForCopy true (some [none, none]) true "job"
        ([some progressStatusEx] ++ some endStatusEx :: [])).2.1).count Event.sleep =
      ((startAndWaitForCopy true (some [none, none]) true "job"
        ([some progressStatusEx] ++ some endStatusEx :: [])).2.1).count Event.fetch :=
  C2_amended_wait_every_cycle true true "job" (some [none, none]) [some progressStatusEx] []
    endStatusEx (by intro cs h x hx; cases h; simpa using hx) (by decide) (by decide)

/-- C3: when the cancellation check throws on poll cycle j = `pre.length + 1`
(having returned normally on the j - 1 earlier cycles, whose statuses are not
yet terminal), the poller stops immediately after j cancellation checks with
only j - 1 status fetches — the check of a cycle precedes that cycle's fetch —
and the cancellation error propagates unmodified, with its payload, through
both `startAndWaitForCopy` and `azCopyTransfer`. -/
theorem C3_cancellation_stops_and_propagates (useWildCard hasNotif answerDownload : Bool)
    (jobId : String) (pre rest : List (Option TransferStatus))
    (cs' : List (Option String)) (payload : String)
    (hpre : ∀ st ∈ pre, isEndOfJob st = false) :
    (startAndWaitForCopy useWildCard
        (some (List.replicate pre.length none ++ some payload :: cs'))
        hasNotif jobId (pre ++ rest)).1 = Outcome.thrown (Err.canceled payload)
    ∧ ((startAndWaitForCopy useWildCard
        (some (List.replicate pre.length none ++ some payload :: cs'))
        hasNotif jobId (pre ++ rest)).2.1).count Event.cancelCheck = pre.length + 1
    ∧ ((startAndWaitForCopy useWildCard
        (some (List.replicate pre.length none ++ some payload :: cs'))
        hasNotif jobId (pre ++ rest)).2.1).count Event.fetch = pre.length
    ∧ (azCopyTransfer true answerDownload useWildCard
        (some (List.replicate pre.length none ++ some payload :: cs'))
        hasNotif jobId (pre ++ rest)).1 = Outcome.thrown (Err.canceled payload) := by
  have h := pollLoop_cancel useWildCard hasNotif jobId pre cs' payload hpre rest
  have hf := azCopyTransfer_cancel_script answerDownload useWildCard hasNotif jobId
    pre rest cs' payload hpre
  refine ⟨?_, ?_, ?_, ?_⟩
  · simp [startAndWaitForCopy, h]
  · simp [startAndWaitForCopy, h, List.count_cons, List.count_append,
      count_tracesOf_cancelCheck]
  · simp [startAndWaitForCopy, h, List.count_cons, List.count_append,
      count_tracesOf_fetch]
  · rw [hf]

theorem C3_witness :
    (startAndWaitForCopy false
        (some (List.replicate [some progressStatusEx, some progressStatusEx].length none ++
          some "USER_CANCELED" :: []))
        true "job" ([some progressStatusEx, some progressStatusEx] ++ [some endStatusEx])).1 =
      Outcome.thrown (Err.canceled "USER_CANCELED")
    ∧ ((startAndWaitForCopy false
        (some (List.replicate [some progressStatusEx, some progressStatusEx].length none ++
          some "USER_CANCELED" :: []))
        true "job" ([some progressStatusEx, some progressStatusEx] ++ [some endStatusEx])).2.1).count
        Event.cancelCheck = 3
    ∧ ((startAndWaitForCopy false
        (some (List.replicate [some progressStatusEx, some progressStatusEx].length none ++
          some "USER_CANCELED" :: []))
        true "job" ([some progressStatusEx, some progressStatusEx] ++ [some endStatusEx])).2.1).count
        Event.fetch = 2
    ∧ (azCopyTransfer true false false
        (some (List.replicate [some progressStatusEx, some progressStatusEx].length none ++
          some "USER_CANCELED" :: []))
        true "job" ([some progressStatusEx, some progressStatusEx] ++ [some endStatusEx])).1 =
      Outcome.thrown (Err.canceled "USER_CANCELED") :=
  C3_cancellation_stops_and_propagates false true false "job"
    [some progressStatusEx, some progressStatusEx] [some endStatusEx] [] "USER_CANCELED"
    (by decide)

/-- C4: on every poll cycle the counter fed to both report operations is the
status's `TransfersCompleted` when the source uses a wildcard and its
`BytesOverWire` otherwise, defaulting to 0 when the status or the selected
counter is absent; absent statuses do not fail the poll (the run still
completes normally). -/
theorem C4_progress_counter_selection (useWildCard hasNotif : Bool) (jobId : String)
    (tic : Option (List (Option String))) (pre rest : List (Option TransferStatus))
    (t : TransferStatus)
    (hnc : NoCancel tic)
    (hpre : ∀ st ∈ pre, isEndOfJob st = false)
    (ht : t.StatusType = "EndOfJob") :
    reportedOutValues
        ((startAndWaitForCopy useWildCard tic hasNotif jobId (pre ++ some t :: rest)).2.1) =
      (pre ++ [some t]).map (finishedWorkOf useWildCard)
    ∧ reportedNotifValues
        ((startAndWaitForCopy useWildCard tic hasNotif jobId (pre ++ some t :: rest)).2.1) =
      (if hasNotif then (pre ++ [some t]).map (finishedWorkOf useWildCard) else [])
    ∧ (∀ s : TransferStatus, finishedWorkOf useWildCard (some s) =
        if useWildCard then s.TransfersCompleted.getD 0 else s.BytesOverWire.getD 0)
    ∧ finishedWorkOf useWildCard none = 0
    ∧ (startAndWaitForCopy useWildCard tic hasNotif jobId (pre ++ some t :: rest)).1 =
        Outcome.ok jobId := by
  have h := startAndWaitForCopy_success useWildCard hasNotif jobId tic pre rest t hnc hpre ht
  rw [h]
  refine ⟨?_, ?_, fun s => rfl, rfl, rfl⟩
  · simp only [reportedOutValues, List.filterMap_cons, outValue]
    rw [← reportedOutValues, reportedOutValues_tracesOf]
  · simp only [reportedNotifValues, List.filterMap_cons, notifValue]
    rw [← reportedNotifValues, reportedNotifValues_tracesOf]

theorem C4_witness :
    reportedOutValues ((startAndWaitForCopy true none true "job"
        ([none, some progressStatusEx] ++ some endStatusEx :: [])).2.1) =
      ([none, some progressStatusEx] ++ [some endStatusEx]).map (finishedWorkOf true)
    ∧ reportedNotifValues ((startAndWaitForCopy true none true "job"
        ([none, some progressStatusEx] ++ some endStatusEx :: [])).2.1) =
      (if true then ([none, some progressStatusEx] ++ [some endStatusEx]).map (finishedWorkOf true) else [])
    ∧ (∀ s : TransferStatus, finishedWorkOf true (some s) =
        if true then s.TransfersCompleted.getD 0 else s.BytesOverWire.getD 0)
    ∧ finishedWorkOf true none = 0
    ∧ (startAndWaitForCopy true none true "job"
        ([none, some progressStatusEx] ++ some endStatusEx :: [])).1 = Outcome.ok "job" :=
  C4_progress_counter_selection true true "job" none [none, some progressStatusEx] []
    endStatusEx (by simp [NoCancel]) (by decide) (by decide)

/-- C10: the loop guard starts with an undefined status, so the body runs at
least once: even when the very first fetched status is already terminal the
poller performs that cycle's cancellation check (when a check was supplied),
one status fetch, and reports the terminal counter once to the output window
(and once to the notification sink when one was supplied) before returning
the handle. -/
theorem C10_loop_body_runs_at_least_once (useWildCard hasNotif : Bool) (jobId : String)
    (tic : Option (List (Option String))) (rest : List (Option TransferStatus))
    (t : TransferStatus)
    (hnc : NoCancel tic)
    (ht : t.StatusType = "EndOfJob") :
    (startAndWaitForCopy useWildCard tic hasNotif jobId (some t :: rest)).1 = Outcome.ok jobId
    ∧ ((startAndWaitForCopy useWildCard tic hasNotif jobId (some t :: rest)).2.1).count
        Event.fetch = 1
    ∧ ((startAndWaitForCopy useWildCard tic hasNotif jobId (some t :: rest)).2.1).count
        Event.cancelCheck = (if tic.isSome then 1 else 0)
    ∧ reportedOutValues ((startAndWaitForCopy useWildCard tic hasNotif jobId (some t :: rest)).2.1) =
        [finishedWorkOf useWildCard (some t)]
    ∧ reportedNotifValues ((startAndWaitForCopy useWildCard tic hasNotif jobId (some t :: rest)).2.1) =
        (if hasNotif then [finishedWorkOf useWildCard (some t)] else []) := by
  have h := startAndWaitForCopy_success useWildCard hasNotif jobId tic [] rest t hnc
    (by simp) ht
  simp only [List.nil_append] at h
  rw [h]
  refine ⟨rfl, ?_, ?_, ?_, ?_⟩
  · simp [List.count_cons, count_tracesOf_fetch]
  · simp [List.count_cons, count_tracesOf_cancelCheck]
  · simp only [reportedOutValues, List.filterMap_cons, outValue]
    rw [← reportedOutValues, reportedOutValues_tracesOf]
    simp
  · simp only [reportedNotifValues, List.filterMap_cons, notifValue]
    rw [← reportedNotifValues, reportedNotifValues_tracesOf]
    cases hasNotif <;> simp

theorem C10_witness :
    (startAndWaitForCopy false (some []) true "job" (some endStatusEx :: [])).1 =
        Outcome.ok "job"
    ∧ ((startAndWaitForCopy false (some []) true "job" (some endStatusEx :: [])).2.1).count
        Event.fetch = 1
    ∧ ((startAndWaitForCopy false (some []) true "job" (some endStatusEx :: [])).2.1).count
        Event.cancelCheck = (if (some ([] : List (Option String))).isSome then 1 else 0)
    ∧ reportedOutValues ((startAndWaitForCopy false (some []) true "job"
        (some endStatusEx :: [])).2.1) = [finishedWorkOf false (some endStatusEx)]
    ∧ reportedNotifValues ((startAndWaitForCopy false (some []) true "job"
        (some endStatusEx :: [])).2.1) =
      (if true then [finishedWorkOf false (some endStatusEx)] else []) :=
  C10_loop_body_runs_at_least_once false true "job" (some []) [] endStatusEx
    (by intro cs h x hx; cases h; simp at hx) (by decide)

/-- A concrete failed terminal status with an engine-provided error message. -/
def failedStatusEx : TransferStatus :=
  { StatusType := "EndOfJob", JobStatus := some "Failed", ErrorMsg := some "boom",
    TransfersCompleted := none, BytesOverWire := none }

/-- C5: after the poller returns, `azCopyTransfer` re-fetches the final status
by the returned handle (exactly one fetch beyond the loop's k); when that
status is absent or its `JobStatus` reads `Failed` it throws a transfer-failure
error whose message includes the engine-provided error message when one is
present and is the generic failure message otherwise; any other terminal
outcome returns normally with no value and no error. -/
theorem C5_final_status_classification (answerDownload useWildCard hasNotif : Bool)
    (jobId : String) (tic : Option (List (Option String)))
    (pre rest : List (Option TransferStatus)) (t : TransferStatus)
    (fs : Option TransferStatus)
    (hnc : NoCancel tic)
    (hpre : ∀ st ∈ pre, isEndOfJob st = false)
    (ht : t.StatusType = "EndOfJob") :
    ((fs = none ∨ ∃ s, fs = some s ∧ s.JobStatus = some "Failed") →
      (azCopyTransfer true answerDownload useWildCard tic hasNotif jobId
          (pre ++ some t :: fs :: rest)).1 =
        Outcome.thrown (Err.error (failureMessage fs)))
    ∧ ((∃ s, fs = some s ∧ ¬ s.JobStatus = some "Failed") →
      (azCopyTransfer true answerDownload useWildCard tic hasNotif jobId
          (pre ++ some t :: fs :: rest)).1 = Outcome.ok ())
    ∧ (∀ s msg, fs = some s → s.ErrorMsg = some msg → ¬ msg = "" →
        failureMessage fs = "AzCopy Transfer Failed: " ++ msg)
    ∧ ((fs.bind TransferStatus.ErrorMsg).getD "" = "" →
        failureMessage fs = "AzCopy Transfer Failed")
    ∧ ((azCopyTransfer true answerDownload useWildCard tic hasNotif jobId
          (pre ++ some t :: fs :: rest)).2).count Event.fetch = pre.length + 2 := by
  have h := azCopyTransfer_success_script answerDownload useWildCard hasNotif jobId tic
    pre rest t fs hnc hpre ht
  rw [h]
  refine ⟨?_, ?_, ?_, ?_, ?_⟩
  · intro hfail
    have : isFailedFinal fs = true := by
      rcases hfail with rfl | ⟨s, rfl, hs⟩
      · rfl
      · simp [isFailedFinal, hs]
    simp [this]
  · rintro ⟨s, rfl, hs⟩
    have : isFailedFinal (some s) = false := by simp [isFailedFinal, hs]
    simp [this]
  · rintro s msg rfl hmsg hne
    simp [failureMessage, hmsg, hne]
  · intro hnone
    simp [failureMessage, hnone]
  · simp [List.count_cons, List.count_append, count_tracesOf_fetch]

theorem C5_witness :
    ((some failedStatusEx = none ∨
        ∃ s, some failedStatusEx = some s ∧ s.JobStatus = some "Failed") →
      (azCopyTransfer true false false none true "job"
          ([] ++ some endStatusEx :: some failedStatusEx :: [])).1 =
        Outcome.thrown (Err.error (failureMessage (some failedStatusEx))))
    ∧ ((∃ s, some failedStatusEx = some s ∧ ¬ s.JobStatus = some "Failed") →
      (azCopyTransfer true false false none true "job"
          ([] ++ some endStatusEx :: some failedStatusEx :: [])).1 = Outcome.ok ())
    ∧ (∀ s msg, some failedStatusEx = some s → s.ErrorMsg = some msg → ¬ msg = "" →
        failureMessage (some failedStatusEx) = "AzCopy Transfer Failed: " ++ msg)
    ∧ (((some failedStatusEx).bind TransferStatus.ErrorMsg).getD "" = "" →
        failureMessage (some failedStatusEx) = "AzCopy Transfer Failed")
    ∧ ((azCopyTransfer true false false none true "job"
          ([] ++ some endStatusEx :: some failedStatusEx :: [])).2).count Event.fetch = 2 :=
  C5_final_status_classification false false true "job" none [] [] endStatusEx
    (some failedStatusEx) (by simp [NoCancel]) (by decide) (by decide)

/-- C6: when the engine-availability probe fails, `azCopyTransfer` never
submits a job and never fetches a status, and returns normally without
throwing (silent abort), regardless of the user's answer to the download
prompt. -/
theorem C6_probe_failure_silent_abort (answerDownload useWildCard hasNotif : Bool)
    (tic : Option (List (Option String))) (jobId : String)
    (statuses : List (Option TransferStatus)) :
    (azCopyTransfer false answerDownload useWildCard tic hasNotif jobId statuses).1 =
        Outcome.ok ()
    ∧ ((azCopyTransfer false answerDownload useWildCard tic hasNotif jobId statuses).2).count
        Event.submit = 0
    ∧ ((azCopyTransfer false answerDownload useWildCard tic hasNotif jobId statuses).2).count
        Event.fetch = 0 := by
  cases answerDownload <;>
    simp [azCopyTransfer, validateAzCopyInstalled, List.count_cons]

/-! ### Path construction claims -/

theorem endsWithSep_iff (s : String) :
    endsWithSep s = true ↔ ∃ u, s.data = u ++ [sepChar] := by
  simp [endsWithSep, List.getLast?_eq_some_iff]

theorem suffix_append_right_cancel {α : Type} {l₁ l₂ t : List α} :
    (l₁ ++ t) <:+ (l₂ ++ t) ↔ l₁ <:+ l₂ := by
  constructor
  · rintro ⟨v, hv⟩
    rw [← List.append_assoc] at hv
    exact ⟨v, List.append_cancel_right hv⟩
  · rintro ⟨v, hv⟩
    exact ⟨v, by rw [← List.append_assoc, hv]⟩

/-- The property claim C7 asserts of every constructed wildcard path: it ends
with the glob suffix immediately preceded by exactly one path separator. -/
def singleSepBeforeGlob (globSuffix : List Char) (p : String) : Prop :=
  (sepChar :: globSuffix) <:+ p.data ∧ ¬ ((sepChar :: sepChar :: globSuffix) <:+ p.data)

instance (globSuffix : List Char) (p : String) :
    Decidable (singleSepBeforeGlob globSuffix p) := by
  unfold singleSepBeforeGlob
  infer_instance

/-- C7 counterexample: for the directory path `a//` (which already ends with a
separator, indeed a doubled one), the constructed path is `a//.*`: the glob
suffix is immediately preceded by two separators, not exactly one, so the
claimed property fails. -/
theorem C7_counterexample :
    (createAzCopyLocalDirectorySource "a//").path = "a//.*"
    ∧ ¬ singleSepBeforeGlob ['.', '*'] (createAzCopyLocalDirectorySource "a//").path := by
  constructor
  · decide
  · decide

/-- C7 amended: every constructed descriptor is a wildcard `Local` whose path
ends with the glob suffix preceded by a separator; the function appends the
separator exactly when the input does not already end with one (never doubling
it itself); the claimed "exactly one separator immediately before the glob"
holds whenever the input does not already end with a doubled separator. -/
theorem C7_amended_single_sep_unless_doubled (s : String) :
    (createAzCopyLocalDirectorySource s).type = "Local"
    ∧ (createAzCopyLocalDirectorySource s).useWildCard = true
    ∧ (createAzCopyLocalDirectorySource s).path =
        (if endsWithSep s then s ++ ".*" else s ++ sep ++ ".*")
    ∧ (sepChar :: ['.', '*']) <:+ (createAzCopyLocalDirectorySource s).path.data
    ∧ (¬ ((sepChar :: [sepChar]) <:+ s.data) →
        singleSepBeforeGlob ['.', '*'] (createAzCopyLocalDirectorySource s).path) := by
  have hpath : (createAzCopyLocalDirectorySource s).path =
      if endsWithSep s then s ++ ".*" else s ++ sep ++ ".*" := rfl
  have hd1 : (".*" : String).data = ['.', '*'] := rfl
  have hd2 : sep.data = [sepChar] := rfl
  have hsuf : (sepChar :: ['.', '*']) <:+ (createAzCopyLocalDirectorySource s).path.data := by
    rw [hpath]
    by_cases h : endsWithSep s
    · obtain ⟨u, hu⟩ := (endsWithSep_iff s).1 h
      rw [if_pos h, String.data_append, hd1, hu, List.append_assoc, List.singleton_append]
      exact List.suffix_append u _
    · rw [if_neg h, String.data_append, String.data_append, hd1, hd2,
        List.append_assoc, List.singleton_append]
      exact List.suffix_append s.data _
  refine ⟨rfl, rfl, rfl, hsuf, ?_⟩
  intro hnd
  refine ⟨hsuf, ?_⟩
  intro hbad
  rw [hpath] at hbad
  have hform : (sepChar :: sepChar :: ['.', '*']) = [sepChar, sepChar] ++ ['.', '*'] := rfl
  by_cases h : endsWithSep s
  · rw [if_pos h, String.data_append, hd1, hform] at hbad
    exact hnd (suffix_append_right_cancel.1 hbad)
  · rw [if_neg h, String.data_append, String.data_append, hd1, hd2, List.append_assoc,
      hform] at hbad
    have hbad2 : ([sepChar] ++ [sepChar]) ++ ['.', '*'] <:+ s.data ++ ([sepChar] ++ ['.', '*']) := hbad
    rw [← List.append_assoc] at hbad2
    have h1 : [sepChar] ++ [sepChar] <:+ s.data ++ [sepChar] :=
      suffix_append_right_cancel.1 hbad2
    have h2 : [sepChar] <:+ s.data := suffix_append_right_cancel.1 h1
    obtain ⟨u, hu⟩ := h2
    exact absurd ((endsWithSep_iff s).2 ⟨u, hu.symm⟩) (by simp [h])

theorem C7_amended_witness :
    (createAzCopyLocalDirectorySource "dir").type = "Local"
    ∧ (createAzCopyLocalDirectorySource "dir").useWildCard = true
    ∧ (createAzCopyLocalDirectorySource "dir").path =
        (if endsWithSep "dir" then "dir" ++ ".*" else "dir" ++ sep ++ ".*")
    ∧ (sepChar :: ['.', '*']) <:+ (createAzCopyLocalDirectorySource "dir").path.data
    ∧ (¬ ((sepChar :: [sepChar]) <:+ ("dir" : String).data) →
        singleSepBeforeGlob ['.', '*'] (createAzCopyLocalDirectorySource "dir").path) :=
  C7_amended_single_sep_unless_doubled "dir"

/-- C8: every constructed destination is a non-wildcard `RemoteSas` descriptor
whose path begins with `/` whether or not the input did; an input already
beginning with `/` is returned unchanged, and the normalization is idempotent. -/
theorem C8_destination_normalized (sasToken resourceUri destinationPath : String) :
    (createAzCopyDestination sasToken resourceUri destinationPath).type = "RemoteSas"
    ∧ (createAzCopyDestination sasToken resourceUri destinationPath).useWildCard = false
    ∧ firstCharIs (createAzCopyDestination sasToken resourceUri destinationPath).path '/' = true
    ∧ (firstCharIs destinationPath '/' = true →
        (createAzCopyDestination sasToken resourceUri destinationPath).path = destinationPath)
    ∧ (createAzCopyDestination sasToken resourceUri
          ((createAzCopyDestination sasToken resourceUri destinationPath).path)).path =
        (createAzCopyDestination sasToken resourceUri destinationPath).path := by
  have hpath : ∀ p : String, (createAzCopyDestination sasToken resourceUri p).path =
      if firstCharIs p '/' then p else "/" ++ p := fun p => rfl
  have hslash : ∀ u : String, firstCharIs ("/" ++ u) '/' = true := by
    intro u
    have hd : ("/" : String).data = ['/'] := rfl
    simp [firstCharIs, String.data_append, hd]
  have hfirst : firstCharIs (createAzCopyDestination sasToken resourceUri destinationPath).path
      '/' = true := by
    rw [hpath]
    by_cases h : firstCharIs destinationPath '/'
    · rw [if_pos h]
      exact h
    · rw [if_neg h]
      exact hslash destinationPath
  refine ⟨rfl, rfl, hfirst, ?_, ?_⟩
  · intro h
    rw [hpath, if_pos h]
  · rw [hpath ((createAzCopyDestination sasToken resourceUri destinationPath).path),
      if_pos hfirst]

theorem C8_witness :
    (createAzCopyDestination "sas" "https://uri" "container/blob").type = "RemoteSas"
    ∧ (createAzCopyDestination "sas" "https://uri" "container/blob").useWildCard = false
    ∧ firstCharIs (createAzCopyDestination "sas" "https://uri" "container/blob").path '/' = true
    ∧ (firstCharIs "container/blob" '/' = true →
        (createAzCopyDestination "sas" "https://uri" "container/blob").path = "container/blob")
    ∧ (createAzCopyDestination "sas" "https://uri"
          ((createAzCopyDestination "sas" "https://uri" "container/blob").path)).path =
        (createAzCopyDestination "sas" "https://uri" "container/blob").path :=
  C8_destination_normalized "sas" "https://uri" "container/blob"

/-- C9: the two near-duplicate implementations agree on the descriptor type
(`Local`) and on `useWildCard` (`true`), and their paths share the same base,
one ending in the dotfile-inclusive suffix `.*` and the other in the bare
suffix `*`; consequently they are never extensionally equal on the path. -/
theorem C9_duplicate_implementations_glob_differs (s : String) :
    (Part001.createAzCopyLocalDirectorySource s).type = (createAzCopyLocalDirectorySource s).type
    ∧ (createAzCopyLocalDirectorySource s).type = "Local"
    ∧ (Part001.createAzCopyLocalDirectorySource s).useWildCard = true
    ∧ (createAzCopyLocalDirectorySource s).useWildCard = true
    ∧ (∃ base : String,
        (createAzCopyLocalDirectorySource s).path = base ++ ".*"
        ∧ (Part001.createAzCopyLocalDirectorySource s).path = base ++ "*")
    ∧ ¬ (createAzCopyLocalDirectorySource s).path = (Part001.createAzCopyLocalDirectorySource s).path := by
  have hd1 : (".*" : String).data = ['.', '*'] := rfl
  have hd2 : ("*" : String).data = ['*'] := rfl
  refine ⟨rfl, rfl, rfl, rfl, ?_, ?_⟩
  · by_cases h : endsWithSep s
    · exact ⟨s, by simp [createAzCopyLocalDirectorySource,
        Part001.createAzCopyLocalDirectorySource, h]⟩
    · exact ⟨s ++ sep, by simp [createAzCopyLocalDirectorySource,
        Part001.createAzCopyLocalDirectorySource, h]⟩
  · intro heq
    have hdata := congrArg String.data heq
    by_cases h : endsWithSep s <;>
      simp [createAzCopyLocalDirectorySource, Part001.createAzCopyLocalDirectorySource, h,
        String.data_append, hd1, hd2] at hdata

theorem C9_witness :
    (Part001.createAzCopyLocalDirectorySource "dir2").type =
        (createAzCopyLocalDirectorySource "dir2").type
    ∧ (createAzCopyLocalDirectorySource "dir2").type = "Local"
    ∧ (Part001.createAzCopyLocalDirectorySource "dir2").useWildCard = true
    ∧ (createAzCopyLocalDirectorySource "dir2").useWildCard = true
    ∧ (∃ base : String,
        (createAzCopyLocalDirectorySource "dir2").path = base ++ ".*"
        ∧ (Part001.createAzCopyLocalDirectorySource "dir2").path = base ++ "*")
    ∧ ¬ (createAzCopyLocalDirectorySource "dir2").path =
        (Part001.createAzCopyLocalDirectorySource "dir2").path :=
  C9_duplicate_implementations_glob_differs "dir2"

end AzCopy
